import Mathlib

/-!
Verification of the two-stage breast-cancer diagnosis pipeline
(`multi-stage-diagnosis.py`).

The pipeline has two components:
- an image loader/normalizer (Keras `load_img` at a target size, then
  `img_to_array(...) / 255.0` and a leading `np.newaxis` batch dimension);
- a two-stage classifier `diagnose` that runs `predict` with model 1 at
  224x224, short-circuits to the label 'n' when the predicted class is 1,
  and otherwise runs `predict` with model 2 at 299x299, returning 'b' for
  class 0 and 'm' for class 1.

We embed the pipeline shallowly: an environment maps paths to image files
and to model artifacts; model outputs are rational probabilities; fallible
steps return `Except`.
-/

/-- An image file on disk as seen through the Keras loader: for every target
size `(height, width)` it yields a grid of raw pixel intensities, one per
(row, column, channel); decoded channels are 8-bit, so every raw intensity
is at most 255. -/
structure ImageFile where
  pixel : Nat × Nat → Nat → Nat → Nat → Nat
  pixel_le : ∀ s i j c, pixel s i j c ≤ 255

/-- A numeric array with an explicit dimension list and rational entries,
indexed by (batch, row, column, channel). -/
structure Tensor where
  dims : List Nat
  val : Nat → Nat → Nat → Nat → ℚ

/-- The loader/normalizer of `predict`: `load_img(image_path, target_size=shape)`
followed by `img_to_array(image) / 255.0` and `image[np.newaxis, ...]`.
Keras interprets `target_size` as `(height, width)`, so the result has shape
`(1, shape[0], shape[1], 3)` and each entry is the raw 0..255 intensity
divided by 255. -/
def loadNormalize (img : ImageFile) (shape : Nat × Nat) : Tensor :=
  { dims := [1, shape.1, shape.2, 3]
    val := fun _ i j c => (img.pixel shape i j c : ℚ) / 255 }

/-- The failures the pipeline can surface: the TFLite interpreter failing to
load a model artifact, or the Keras loader failing to read the image file. -/
inductive PError where
  | modelLoad (path : String)
  | inputError (path : String)
deriving DecidableEq

/-- The ambient environment: which paths hold readable image files, and which
paths hold loadable model artifacts.  A model artifact is its inference
behavior, a function from the input tensor to the scalar probability read at
`predictions[0][0]`. -/
structure Env where
  image : String → Option ImageFile
  model : String → Option (Tensor → ℚ)

/-- The thresholding of `predict`:
`predicted_class = 1 if predictions[0][0] > 0.5 else 0`. -/
def thresholdClass (p : ℚ) : Nat :=
  if p > 1/2 then 1 else 0

/-- The `predict` function: it first constructs the interpreter from
`model_path` and allocates its tensors (failing with a model-load error if
the artifact is missing), then loads and normalizes the image at `shape`
(failing with an input error if the image path is unreadable), runs
inference, and thresholds the scalar output. -/
def predict (env : Env) (image_path : String) (shape : Nat × Nat)
    (model_path : String) : Except PError Nat :=
  match env.model model_path with
  | none => .error (.modelLoad model_path)
  | some run =>
    match env.image image_path with
    | none => .error (.inputError image_path)
    | some img => .ok (thresholdClass (run (loadNormalize img shape)))

/-- Stage-1 target resolution `shape1 = (224, 224)`. -/
def shape1 : Nat × Nat := (224, 224)

/-- Stage-2 target resolution `shape2 = (299, 299)`. -/
def shape2 : Nat × Nat := (299, 299)

/-- Stage-1 model artifact path. -/
def model_1_path : String := "model1.tflite"

/-- Stage-2 model artifact path. -/
def model_2_path : String := "model2.tflite"

/-- The `diagnose` function: run stage 1; if its class is 1 return 'n';
otherwise run stage 2 and return 'b' for class 0, 'm' otherwise.  Errors
from either `predict` call propagate unchanged. -/
def diagnose (env : Env) (image_path : String) : Except PError Char :=
  match predict env image_path shape1 model_1_path with
  | .error e => .error e
  | .ok class1 =>
    if class1 = 1 then .ok 'n'
    else
      match predict env image_path shape2 model_2_path with
      | .error e => .error e
      | .ok class2 => if class2 = 0 then .ok 'b' else .ok 'm'

/-- A record of one `predict` invocation: the image path it loads afresh, the
target shape of that load, and the model artifact it loads. -/
structure Call where
  image_path : String
  shape : Nat × Nat
  model_path : String
deriving DecidableEq

/-- The stage-1 `predict` invocation on path `p`. -/
def stage1Call (p : String) : Call :=
  ⟨p, shape1, model_1_path⟩

/-- The stage-2 `predict` invocation on path `p`. -/
def stage2Call (p : String) : Call :=
  ⟨p, shape2, model_2_path⟩

/-- `diagnose` instrumented with the list of `predict` invocations it makes,
in order.  Its second component coincides with `diagnose`
(`diagnoseCalls_snd`). -/
def diagnoseCalls (env : Env) (image_path : String) :
    List Call × Except PError Char :=
  match predict env image_path shape1 model_1_path with
  | .error e => ([stage1Call image_path], .error e)
  | .ok class1 =>
    if class1 = 1 then ([stage1Call image_path], .ok 'n')
    else
      match predict env image_path shape2 model_2_path with
      | .error e => ([stage1Call image_path, stage2Call image_path], .error e)
      | .ok class2 =>
        ([stage1Call image_path, stage2Call image_path],
          if class2 = 0 then .ok 'b' else .ok 'm')

/-- The result-to-display mapping of `App.run_diagnosis`: 'n' shows "Normal",
'b' shows "Benign", 'm' shows "Malignant", and anything else falls back to
"Error". -/
def resultText (result : Char) : String :=
  if result = 'n' then "Normal"
  else if result = 'b' then "Benign"
  else if result = 'm' then "Malignant"
  else "Error"

/-- The last path component, modelling Python's `file_path.split('/')[-1]`:
the suffix of the string after its last '/' (the whole string when no '/'
occurs). -/
def lastComponent (s : String) : String :=
  String.mk (s.data.foldl (fun acc c => if c = '/' then [] else acc ++ [c]) [])

/-- The path rewrite of `App.upload_image`: the user-selected `file_path` is
replaced by `./Testing/` followed by its last component, and that rewritten
path is what gets diagnosed. -/
def rewrittenPath (file_path : String) : String :=
  "./Testing/" ++ lastComponent file_path

/-- Helper: the instrumented pipeline computes the same result as `diagnose`. -/
theorem diagnoseCalls_snd (env : Env) (p : String) :
    (diagnoseCalls env p).2 = diagnose env p := by
  unfold diagnoseCalls diagnose
  cases predict env p shape1 model_1_path with
  | error e => rfl
  | ok class1 =>
    by_cases h1 : class1 = 1
    · simp [h1]
    · simp only [h1, if_false]
      cases predict env p shape2 model_2_path with
      | error e => rfl
      | ok class2 => by_cases h2 : class2 = 0 <;> simp [h1, h2]

/-- Helper: `predict` on a present model and readable image returns the
thresholded model output. -/
theorem predict_ok (env : Env) (p : String) (s : Nat × Nat) (mp : String)
    (f : Tensor → ℚ) (img : ImageFile)
    (hm : env.model mp = some f) (hi : env.image p = some img) :
    predict env p s mp = .ok (thresholdClass (f (loadNormalize img s))) := by
  unfold predict
  rw [hm, hi]

/-- A concrete test image: every raw intensity is 100 at every target size. -/
def greyImage : ImageFile :=
  ⟨fun _ _ _ _ => 100, fun _ _ _ _ => by norm_num⟩

/-- Environment where every image is readable and every model outputs 3/4. -/
def envHigh : Env :=
  { image := fun _ => some greyImage
    model := fun _ => some (fun _ => 3/4) }

/-- Environment where every image is readable and every model outputs 1/4. -/
def envLow : Env :=
  { image := fun _ => some greyImage
    model := fun _ => some (fun _ => 1/4) }

/-- Environment where every image is readable and every model outputs exactly
1/2. -/
def envHalf : Env :=
  { image := fun _ => some greyImage
    model := fun _ => some (fun _ => 1/2) }

/-- Environment with no readable images and no loadable models. -/
def envEmpty : Env :=
  { image := fun _ => none
    model := fun _ => none }

/-- Environment with no readable images but with models that output 3/4. -/
def envNoImage : Env :=
  { image := fun _ => none
    model := fun _ => some (fun _ => 3/4) }

/-- C4: for every readable image file and target size, the loader/normalizer
produces a tensor whose dimension list is (1, height, width, 3) — a leading
batch dimension of size 1, with the target interpreted per Keras
`target_size=(height, width)` — whose entries are the raw 0..255 intensities
divided by 255, hence all entries lie in [0, 1]. -/
theorem loader_contract_shape_range (img : ImageFile) (h w : Nat) :
    (loadNormalize img (h, w)).dims = [1, h, w, 3]
    ∧ (∀ b i j c, (loadNormalize img (h, w)).val b i j c
        = (img.pixel (h, w) i j c : ℚ) / 255)
    ∧ (∀ b i j c, 0 ≤ (loadNormalize img (h, w)).val b i j c
        ∧ (loadNormalize img (h, w)).val b i j c ≤ 1) := by
  refine ⟨rfl, fun _ _ _ _ => rfl, fun b i j c => ⟨?_, ?_⟩⟩
  · exact div_nonneg (by positivity) (by norm_num)
  · have hle : (img.pixel (h, w) i j c : ℚ) ≤ 255 := by
      exact_mod_cast img.pixel_le (h, w) i j c
    calc (loadNormalize img (h, w)).val b i j c
        = (img.pixel (h, w) i j c : ℚ) / 255 := rfl
      _ ≤ 255 / 255 := by
          exact div_le_div_of_nonneg_right hle (by norm_num) |>.trans_eq rfl
      _ = 1 := by norm_num

/-- C9: the loader is deterministic — loading the same image at the same
target size twice yields identical normalized tensors, and with a fixed
environment two `diagnose` calls on the same path give identical results. -/
theorem loader_deterministic (img : ImageFile) (s : Nat × Nat)
    (env : Env) (p : String) :
    loadNormalize img s = loadNormalize img s
    ∧ diagnose env p = diagnose env p :=
  ⟨rfl, rfl⟩

/-- C10: in `predict` the interpreter is constructed before the image is read,
so a missing model artifact yields the model-load error regardless of whether
the image path is readable. -/
theorem model_load_error_precedence (env : Env) (ip : String) (s : Nat × Nat)
    (mp : String) (hm : env.model mp = none) :
    predict env ip s mp = Except.error (PError.modelLoad mp) := by
  unfold predict
  rw [hm]

/-- Witness for C10: in the environment with neither models nor images, the
image path is indeed unreadable, and `predict` still fails with the
model-load error, not the input error. -/
theorem model_load_error_precedence_witness :
    envEmpty.image "missing.png" = none
    ∧ predict envEmpty "missing.png" (224, 224) "missing.tflite"
        = Except.error (PError.modelLoad "missing.tflite") :=
  ⟨rfl, model_load_error_precedence envEmpty "missing.png" (224, 224)
    "missing.tflite" rfl⟩

/-- C5 counter-evidence: `App.upload_image` does NOT pass the selected path
through unchanged — it rewrites the selected file's name into the fixed
`./Testing/` directory, so the diagnosed path differs from the selected one. -/
theorem upload_image_rewrites_path :
    rewrittenPath "/home/user/img.png" = "./Testing/img.png"
    ∧ "./Testing/img.png" ≠ "/home/user/img.png" := by
  exact ⟨by decide, by decide⟩

/-- Helper: the stage-2 invocation record differs from the stage-1 one (their
target shapes differ). -/
theorem stage2Call_ne_stage1Call (p : String) : stage2Call p ≠ stage1Call p := by
  intro he
  have h2 := congrArg Call.shape he
  simp [stage1Call, stage2Call, shape1, shape2] at h2

/-- Helper: the invocation trace of `diagnose` is either just stage 1, or
stage 1 followed by stage 2. -/
theorem diagnoseCalls_fst (env : Env) (p : String) :
    (diagnoseCalls env p).1 = [stage1Call p]
    ∨ (diagnoseCalls env p).1 = [stage1Call p, stage2Call p] := by
  unfold diagnoseCalls
  cases predict env p shape1 model_1_path with
  | error e => left; rfl
  | ok class1 =>
    by_cases hq : class1 = 1
    · left; simp [hq]
    · right
      simp only [hq, if_false]
      cases predict env p shape2 model_2_path with
      | error e => rfl
      | ok class2 => rfl

/-- C1: with model 1 loadable and the image readable, `diagnose` invokes
stage 2 (the second `predict` call, which loads the second model and
re-loads the image) if and only if stage 1's class is 0, i.e. p1 <= 1/2;
whenever p1 > 1/2 (class 1), `diagnose` returns 'n' with stage 1 as its
only `predict` invocation. -/
theorem diagnose_stage2_iff_stage1_class0 (env : Env) (p : String)
    (f1 : Tensor → ℚ) (img : ImageFile)
    (h1 : env.model model_1_path = some f1) (hi : env.image p = some img) :
    (stage2Call p ∈ (diagnoseCalls env p).1
      ↔ f1 (loadNormalize img shape1) ≤ 1/2)
    ∧ (f1 (loadNormalize img shape1) > 1/2 →
        diagnoseCalls env p = ([stage1Call p], Except.ok 'n')) := by
  have hP1 := predict_ok env p shape1 model_1_path f1 img h1 hi
  by_cases hgt : f1 (loadNormalize img shape1) > 1/2
  · have hc : predict env p shape1 model_1_path = .ok 1 := by
      rw [hP1]
      unfold thresholdClass
      rw [if_pos hgt]
    have htrace : diagnoseCalls env p = ([stage1Call p], Except.ok 'n') := by
      unfold diagnoseCalls
      rw [hc]
      rfl
    refine ⟨?_, fun _ => htrace⟩
    rw [htrace, List.mem_singleton]
    exact iff_of_false (stage2Call_ne_stage1Call p) (not_le.mpr hgt)
  · have hle := not_lt.mp hgt
    have hc : predict env p shape1 model_1_path = .ok 0 := by
      rw [hP1]
      unfold thresholdClass
      rw [if_neg hgt]
    have htrace : (diagnoseCalls env p).1 = [stage1Call p, stage2Call p] := by
      unfold diagnoseCalls
      rw [hc]
      cases predict env p shape2 model_2_path with
      | error e => rfl
      | ok class2 => rfl
    refine ⟨?_, fun hgt2 => absurd hgt2 hgt⟩
    rw [htrace]
    exact iff_of_true (by simp) hle

/-- Witness for C1 at a concrete environment whose stage-1 model outputs 3/4:
stage 2 is not in the trace (3/4 is not <= 1/2), and the result is 'n' with
only the stage-1 invocation. -/
theorem diagnose_stage2_iff_stage1_class0_witness :
    (stage2Call "a.png" ∈ (diagnoseCalls envHigh "a.png").1
      ↔ (fun _ : Tensor => (3 : ℚ)/4) (loadNormalize greyImage shape1) ≤ 1/2)
    ∧ ((fun _ : Tensor => (3 : ℚ)/4) (loadNormalize greyImage shape1) > 1/2 →
        diagnoseCalls envHigh "a.png" = ([stage1Call "a.png"], Except.ok 'n')) :=
  diagnose_stage2_iff_stage1_class0 envHigh "a.png" (fun _ => 3/4) greyImage
    rfl rfl

/-- C2: with both models loadable and the image readable, if stage 1 yields
p1 <= 1/2 then `diagnose` returns 'b' when stage 2 yields p2 <= 1/2 and 'm'
when p2 > 1/2. -/
theorem diagnose_benign_malignant (env : Env) (p : String)
    (f1 f2 : Tensor → ℚ) (img : ImageFile)
    (h1 : env.model model_1_path = some f1)
    (h2 : env.model model_2_path = some f2)
    (hi : env.image p = some img)
    (hp1 : f1 (loadNormalize img shape1) ≤ 1/2) :
    (f2 (loadNormalize img shape2) ≤ 1/2 → diagnose env p = Except.ok 'b')
    ∧ (f2 (loadNormalize img shape2) > 1/2 → diagnose env p = Except.ok 'm') := by
  have hc1 : predict env p shape1 model_1_path = .ok 0 := by
    rw [predict_ok env p shape1 model_1_path f1 img h1 hi]
    unfold thresholdClass
    rw [if_neg (not_lt.mpr hp1)]
  have hc2 := predict_ok env p shape2 model_2_path f2 img h2 hi
  constructor
  · intro hp2
    have hok : predict env p shape2 model_2_path = .ok 0 := by
      rw [hc2]
      unfold thresholdClass
      rw [if_neg (not_lt.mpr hp2)]
    unfold diagnose
    rw [hc1, hok]
    rfl
  · intro hp2
    have hok : predict env p shape2 model_2_path = .ok 1 := by
      rw [hc2]
      unfold thresholdClass
      rw [if_pos hp2]
    unfold diagnose
    rw [hc1, hok]
    rfl

/-- Witness for C2 at a concrete environment whose models both output 1/4:
stage 1 passes (1/4 <= 1/2) and indeed 1/4 <= 1/2 forces 'b' while a
probability above 1/2 would force 'm'. -/
theorem diagnose_benign_malignant_witness :
    ((fun _ : Tensor => (1 : ℚ)/4) (loadNormalize greyImage shape2) ≤ 1/2 →
      diagnose envLow "a.png" = Except.ok 'b')
    ∧ ((fun _ : Tensor => (1 : ℚ)/4) (loadNormalize greyImage shape2) > 1/2 →
      diagnose envLow "a.png" = Except.ok 'm') :=
  diagnose_benign_malignant envLow "a.png" (fun _ => 1/4) (fun _ => 1/4)
    greyImage rfl rfl rfl (by norm_num)

/-- C3: the thresholding is strict greater-than, so a probability of exactly
1/2 is classified as class 0; at the boundary stage 1 proceeds to stage 2
(the stage-2 invocation is in the trace), and a stage-2 probability of
exactly 1/2 yields 'b'. -/
theorem threshold_boundary_class0 (env : Env) (p : String)
    (f1 f2 : Tensor → ℚ) (img : ImageFile)
    (h1 : env.model model_1_path = some f1)
    (h2 : env.model model_2_path = some f2)
    (hi : env.image p = some img)
    (hp1 : f1 (loadNormalize img shape1) = 1/2) :
    thresholdClass (1/2) = 0
    ∧ stage2Call p ∈ (diagnoseCalls env p).1
    ∧ (f2 (loadNormalize img shape2) = 1/2 → diagnose env p = Except.ok 'b') := by
  have hth : thresholdClass ((1 : ℚ)/2) = 0 := by
    unfold thresholdClass
    norm_num
  have hc1 : predict env p shape1 model_1_path = .ok 0 := by
    rw [predict_ok env p shape1 model_1_path f1 img h1 hi, hp1, hth]
  refine ⟨hth, ?_, ?_⟩
  · unfold diagnoseCalls
    rw [hc1]
    cases predict env p shape2 model_2_path with
    | error e => simp
    | ok class2 => simp
  · intro hp2
    have hc2 : predict env p shape2 model_2_path = .ok 0 := by
      rw [predict_ok env p shape2 model_2_path f2 img h2 hi, hp2, hth]
    unfold diagnose
    rw [hc1, hc2]
    rfl

/-- Witness for C3 at a concrete environment whose models both output exactly
1/2: the boundary classifies as class 0, stage 2 is invoked, and the result
is 'b'. -/
theorem threshold_boundary_class0_witness :
    thresholdClass (1/2) = 0
    ∧ stage2Call "a.png" ∈ (diagnoseCalls envHalf "a.png").1
    ∧ ((fun _ : Tensor => (1 : ℚ)/2) (loadNormalize greyImage shape2) = 1/2 →
        diagnose envHalf "a.png" = Except.ok 'b') :=
  threshold_boundary_class0 envHalf "a.png" (fun _ => 1/2) (fun _ => 1/2)
    greyImage rfl rfl rfl rfl

/-- C6: when the image path is unreadable, `diagnose` never returns any
label; and when model 1 is loadable, the failure is specifically the input
error for that path, distinguishable from every diagnosis label. -/
theorem diagnose_missing_image_error (env : Env) (p : String)
    (hi : env.image p = none) :
    (∀ c : Char, diagnose env p ≠ Except.ok c)
    ∧ (∀ f : Tensor → ℚ, env.model model_1_path = some f →
        diagnose env p = Except.error (PError.inputError p)) := by
  constructor
  · intro c
    cases hm : env.model model_1_path with
    | none =>
      have hp : predict env p shape1 model_1_path
          = .error (.modelLoad model_1_path) := by
        unfold predict
        rw [hm]
      unfold diagnose
      rw [hp]
      simp
    | some f =>
      have hp : predict env p shape1 model_1_path = .error (.inputError p) := by
        unfold predict
        rw [hm, hi]
      unfold diagnose
      rw [hp]
      simp
  · intro f hm
    have hp : predict env p shape1 model_1_path = .error (.inputError p) := by
      unfold predict
      rw [hm, hi]
    unfold diagnose
    rw [hp]

/-- Witness for C6 at a concrete environment whose models are loadable but
where no image path is readable: `diagnose` returns no label and surfaces
the input error. -/
theorem diagnose_missing_image_error_witness :
    (∀ c : Char, diagnose envNoImage "missing.png" ≠ Except.ok c)
    ∧ (∀ f : Tensor → ℚ, envNoImage.model model_1_path = some f →
        diagnose envNoImage "missing.png"
          = Except.error (PError.inputError "missing.png")) :=
  diagnose_missing_image_error envNoImage "missing.png" rfl

/-- C7: every value `diagnose` returns (rather than raises) is one of the
labels 'n', 'b', 'm', so the "Error" fallback branch of the display mapping
in `App.run_diagnosis` is unreachable on pipeline output. -/
theorem diagnose_label_closed (env : Env) (p : String) (c : Char)
    (h : diagnose env p = Except.ok c) :
    (c = 'n' ∨ c = 'b' ∨ c = 'm') ∧ resultText c ≠ "Error" := by
  have hc : c = 'n' ∨ c = 'b' ∨ c = 'm' := by
    unfold diagnose at h
    split at h
    · exact absurd h (by simp)
    · split at h
      · exact Or.inl (Except.ok.inj h).symm
      · split at h
        · exact absurd h (by simp)
        · split at h
          · exact Or.inr (Or.inl (Except.ok.inj h).symm)
          · exact Or.inr (Or.inr (Except.ok.inj h).symm)
  refine ⟨hc, ?_⟩
  rcases hc with rfl | rfl | rfl <;> decide

/-- Witness for C7 at a concrete environment whose stage-1 model outputs 3/4:
the returned label 'n' is in the label set and does not display as "Error". -/
theorem diagnose_label_closed_witness :
    ('n' = 'n' ∨ 'n' = 'b' ∨ 'n' = 'm') ∧ resultText 'n' ≠ "Error" :=
  diagnose_label_closed envHigh "a.png" 'n' (by
    have hc : predict envHigh "a.png" shape1 model_1_path = .ok 1 := by
      rw [predict_ok envHigh "a.png" shape1 model_1_path (fun _ => 3/4)
        greyImage rfl rfl]
      unfold thresholdClass
      norm_num
    unfold diagnose
    rw [hc]
    rfl)

/-- C8: whenever the stage-2 invocation occurs, the trace is exactly the
stage-1 invocation followed by the stage-2 invocation; the stage-2 record
loads the same image path afresh at (299, 299) while stage 1 loaded it at
(224, 224) — the stage-1 tensor is not reused. -/
theorem stage2_fresh_load_trace (env : Env) (p : String)
    (h : stage2Call p ∈ (diagnoseCalls env p).1) :
    (diagnoseCalls env p).1 = [stage1Call p, stage2Call p]
    ∧ (stage2Call p).image_path = p ∧ (stage2Call p).shape = (299, 299)
    ∧ (stage1Call p).image_path = p ∧ (stage1Call p).shape = (224, 224) := by
  refine ⟨?_, rfl, rfl, rfl, rfl⟩
  rcases diagnoseCalls_fst env p with h1 | h1
  · rw [h1, List.mem_singleton] at h
    exact absurd h (stage2Call_ne_stage1Call p)
  · exact h1

/-- Witness for C8 at a concrete environment whose models output 1/4: stage 2
runs, and the trace is the stage-1 load at (224, 224) followed by the fresh
stage-2 load of the same path at (299, 299). -/
theorem stage2_fresh_load_trace_witness :
    (diagnoseCalls envLow "a.png").1 = [stage1Call "a.png", stage2Call "a.png"]
    ∧ (stage2Call "a.png").image_path = "a.png"
    ∧ (stage2Call "a.png").shape = (299, 299)
    ∧ (stage1Call "a.png").image_path = "a.png"
    ∧ (stage1Call "a.png").shape = (224, 224) :=
  stage2_fresh_load_trace envLow "a.png" (by
    have hc : predict envLow "a.png" shape1 model_1_path = .ok 0 := by
      rw [predict_ok envLow "a.png" shape1 model_1_path (fun _ => 1/4)
        greyImage rfl rfl]
      unfold thresholdClass
      norm_num
    have h : (diagnoseCalls envLow "a.png").1
        = [stage1Call "a.png", stage2Call "a.png"] := by
      unfold diagnoseCalls
      rw [hc]
      cases predict envLow "a.png" shape2 model_2_path with
      | error e => rfl
      | ok class2 => rfl
    rw [h]
    exact List.mem_cons_of_mem _ (List.mem_singleton.mpr rfl))
